import Mathlib

/-!
Verification of SeeQR's database-lifecycle orchestration, query engine and
synthetic data generation, shallowly embedded from the TypeScript source
(`backend/channels.ts`, `backend/DummyD/*`, `frontend/lib/queries.ts`).
-/

set_option autoImplicit false

namespace SeeQR

/- ### Abstract database-server state for the lifecycle orchestrator

The orchestrator's effects on the server are modelled as operations on the
list of database names that exist.  External steps (dump via `pg_dump`,
restore via `psql`/`pg_restore`, CREATE/DROP DATABASE queries) succeed or
fail according to an oracle, matching the `promExecute`/`db.query`
calls in `channels.ts` whose outcomes the handler observes via
thrown rejections. -/

structure DbState where
  dbs : List String
  deriving Repr, DecidableEq

def createDb (st : DbState) (name : String) : DbState :=
  { dbs := st.dbs ++ [name] }

def dropDb (st : DbState) (name : String) : DbState :=
  { dbs := st.dbs.filter (fun s => s ≠ name) }

/-- Outcomes of the external steps of the duplicate-db handler, in the order
the handler runs them. -/
structure DuplicateOracle where
  dumpOk : Bool
  createOk : Bool
  restoreOk : Bool
  dropOk : Bool

/-- The duplicate-db handler of `channels.ts`: dump `sourceDb` to a temp file
(full copy iff `withData`), create `newName`, restore the dump into it; on
restore failure drop `newName` before rethrowing.  The returned pair is the
value surfaced to the caller and the resulting server state.  The temp-file
unlink of the handler's finally block touches no database, so it is not part
of this state. -/
def duplicateDb (st : DbState) (newName sourceDb : String) (withData : Bool)
    (o : DuplicateOracle) : Except String Unit × DbState :=
  let _ := withData
  if !o.dumpOk then
    (Except.error ("Failed to dump " ++ sourceDb ++ " to temp file at temp_" ++ newName ++ ".sql"), st)
  else if !o.createOk then
    (Except.error "Failed to create Database", st)
  else
    let st1 := createDb st newName
    if !o.restoreOk then
      if o.dropOk then
        (Except.error "Failed to populate newly created database", dropDb st1 newName)
      else
        (Except.error "drop of new database failed", st1)
    else
      (Except.ok (), st1)

/-- Outcomes of the external steps of the import-db handler. -/
structure ImportOracle where
  createOk : Bool
  restoreOk : Bool
  dropOk : Bool

/-- Index of the last occurrence of a character in a list. -/
def lastIdxOf (c : Char) : List Char → Option ℕ
  | [] => none
  | a :: rest =>
    match lastIdxOf c rest with
    | some i => some (i + 1)
    | none => if a = c then some 0 else none

/-- Model of Node's `path.extname`: the substring of the basename (text after
the last slash) from its last dot, or the empty string when the basename has
no dot after its first character. -/
def extname (p : String) : String :=
  let cs := p.toList
  let base :=
    match lastIdxOf '/' cs with
    | some i => cs.drop (i + 1)
    | none => cs
  match lastIdxOf '.' base with
  | none => ""
  | some j => if j = 0 then "" else String.mk (base.drop j)

/-- ASCII lowering of one character, the case `String.prototype.toLowerCase`
applies to extension text. -/
def lowerChar (c : Char) : Char :=
  if 'A' ≤ c ∧ c ≤ 'Z' then Char.ofNat (c.toNat + 32) else c

/-- `toLowerCase` on a (ASCII) string. -/
def toLowerStr (s : String) : String :=
  String.mk (s.toList.map lowerChar)

/-- The import-db handler of `channels.ts`: create `newDbName`, then validate
the file extension (`.sql` or `.tar` after lowercasing), then restore the file
into the new database.  The extension-validation throw is caught by no
handler-level catch, so no compensating drop runs on that path; only the
restore-failure path drops the new database. -/
def importDb (st : DbState) (newDbName filePath : String) (o : ImportOracle) :
    Except String Unit × DbState :=
  if !o.createOk then
    (Except.error "Failed to create Database", st)
  else
    let st1 := createDb st newDbName
    let ext := toLowerStr (extname filePath)
    if ext ≠ ".sql" ∧ ext ≠ ".tar" then
      (Except.error "Invalid file extension", st1)
    else if !o.restoreOk then
      if o.dropOk then
        (Except.error "Failed to populate database", dropDb st1 newDbName)
      else
        (Except.error "drop of new database failed", st1)
    else
      (Except.ok (), st1)

/- ### `frontend/lib/queries.ts` data model -/

/-- The two timing fields the frontend reads off a captured execution plan. -/
structure ExecutionPlan where
  executionTime : ℚ
  planningTime : ℚ
  deriving Repr, DecidableEq

structure QueryData where
  label : String
  db : String
  sqlString : String
  executionPlan : Option ExecutionPlan
  deriving Repr, DecidableEq

def keyFromData (label db : String) : String :=
  "label:" ++ label ++ " db:" ++ db

def key (query : QueryData) : String :=
  "label:" ++ query.label ++ " db:" ++ query.db

/-- `getTotalTime`: planning plus execution time, 0 without a plan (the
`!query?.executionPlan` guard covers both a missing query and a missing
plan). -/
def getTotalTime (query : Option QueryData) : ℚ :=
  match query with
  | none => 0
  | some q =>
    match q.executionPlan with
    | none => 0
    | some plan => plan.executionTime + plan.planningTime

/- ### Exact-rational model of the numeric formatting used by `getPrettyTime`

`getPrettyTime` computes `ms(+total.toPrecision(3), { long: true })`.  The
two external pieces — ECMAScript's `Number.prototype.toPrecision` and the
`ms` package's long format — are modelled here over ℚ from their published
semantics; the repository's own test file pins the two outputs the claims
evaluate ("1.08 ms" and "2 seconds"). -/

/-- Floor of log base 10 of a positive rational: the exponent `e` with
`10 ^ e ≤ q < 10 ^ (e + 1)`. -/
def sciExp (q : ℚ) : ℤ :=
  if 1 ≤ q then (Nat.log 10 (Int.toNat ⌊q⌋) : ℤ)
  else
    let c := ⌈q⁻¹⌉
    if c ≤ 1 then 0 else -((Nat.log 10 (Int.toNat (c - 1)) : ℤ) + 1)

/-- `Number.prototype.toPrecision(3)` followed by unary `+`: the numeric value
after rounding to 3 significant digits, ties away from zero on the absolute
value as ECMAScript prescribes. -/
def toPrecision3 (q : ℚ) : ℚ :=
  if q = 0 then 0
  else
    let a := |q|
    let e := sciExp a
    let n := ⌊a / (10 : ℚ) ^ (e - 2) + 1 / 2⌋
    let r := (n : ℚ) * (10 : ℚ) ^ (e - 2)
    if q < 0 then -r else r

/-- JavaScript `Math.round`: half goes toward positive infinity. -/
def jsRound (q : ℚ) : ℤ :=
  ⌊q + 1 / 2⌋

/-- Number of times `p` divides `n` (with explicit fuel; call with `fuel = n`). -/
def countFactor (p : ℕ) : ℕ → ℕ → ℕ
  | 0, _ => 0
  | fuel + 1, n => if 2 ≤ p ∧ n ≠ 0 ∧ n % p = 0 then countFactor p fuel (n / p) + 1 else 0

def leftPadZeros (k : ℕ) (s : String) : String :=
  String.mk (List.replicate (k - s.length) '0') ++ s

/-- Decimal rendering of a rational whose reduced denominator divides a power
of ten, as JavaScript prints such a number (no trailing fractional zeros).
The values reaching it in this development are exact decimals. -/
def ratToDecString (q : ℚ) : String :=
  let sign := if q < 0 then "-" else ""
  let a := |q|
  let k := max (countFactor 2 a.den a.den) (countFactor 5 a.den a.den)
  let units := (a * (10 : ℚ) ^ k).num
  if k = 0 then sign ++ toString units
  else sign ++ toString (units / (10 : ℤ) ^ k) ++ "." ++
    leftPadZeros k (toString (units % (10 : ℤ) ^ k))

/-- One branch of the `ms` package's long format: `Math.round(v / n)` followed
by the unit name, pluralized when the magnitude is at least one and a half
units. -/
def msPlural (v vAbs n : ℚ) (name : String) : String :=
  toString (jsRound (v / n)) ++ " " ++ name ++ (if n * 3 / 2 ≤ vAbs then "s" else "")

/-- The `ms` package's `{ long: true }` formatting of a millisecond count. -/
def fmtLong (v : ℚ) : String :=
  let vAbs := |v|
  if 86400000 ≤ vAbs then msPlural v vAbs 86400000 "day"
  else if 3600000 ≤ vAbs then msPlural v vAbs 3600000 "hour"
  else if 60000 ≤ vAbs then msPlural v vAbs 60000 "minute"
  else if 1000 ≤ vAbs then msPlural v vAbs 1000 "second"
  else ratToDecString v ++ " ms"

/-- `getPrettyTime`: undefined without a plan, otherwise the total time
rounded to 3 significant figures and formatted as a long duration string. -/
def getPrettyTime (query : Option QueryData) : Option String :=
  match query with
  | none => none
  | some q =>
    match q.executionPlan with
    | none => none
    | some _ => some (fmtLong (toPrecision3 (getTotalTime query)))

/- ### JS object heap for the collection helpers of `queries.ts`

`createQuery`, `deleteQuery` and `setCompare` copy their input with an object
spread and then mutate only the copy.  To state that the input object is left
unchanged and that the returned object is a fresh one, JS objects live in an
explicit store and are passed by reference. -/

/-- A JS object used as a keyed collection: entries in insertion order. -/
abbrev Obj : Type := List (String × QueryData)

/-- A heap of JS objects; references are indices into it. -/
structure Store where
  objs : List Obj

def Store.read (st : Store) (r : ℕ) : Obj := st.objs.getD r []

/-- Allocating a fresh object (an object literal / spread) returns its
reference. -/
def Store.alloc (st : Store) (o : Obj) : Store × ℕ :=
  ({ objs := st.objs ++ [o] }, st.objs.length)

/-- In-place mutation of the object behind a reference. -/
def Store.write (st : Store) (r : ℕ) (o : Obj) : Store :=
  { objs := st.objs.set r o }

/-- JS property assignment `o[k] = v`: an existing key keeps its position with
the new value, a new key is appended. -/
def objSet (o : Obj) (k : String) (v : QueryData) : Obj :=
  if o.any (fun e => e.1 = k) then o.map (fun e => if e.1 = k then (k, v) else e)
  else o ++ [(k, v)]

/-- JS `delete o[k]`. -/
def objDelete (o : Obj) (k : String) : Obj :=
  o.filter (fun e => e.1 ≠ k)

/-- `createQuery`: the object literal spreads the input collection and adds
the new query under its key. -/
def createQuery (st : Store) (queries : ℕ) (newQuery : QueryData) : Store × ℕ :=
  Store.alloc st (objSet (st.read queries) (key newQuery) newQuery)

/-- `deleteQuery`: copy the collection with a spread, then `delete` the key on
the copy. -/
def deleteQuery (st : Store) (queries : ℕ) (queryToDelete : QueryData) : Store × ℕ :=
  let s := Store.alloc st (st.read queries)
  (Store.write s.1 s.2 (objDelete (Store.read s.1 s.2) (key queryToDelete)), s.2)

/-- `setCompare`: copy the collection with a spread, then remove or add the
query on the copy per `isCompared`. -/
def setCompare (st : Store) (comparedQueries : ℕ) (query : QueryData) (isCompared : Bool) :
    Store × ℕ :=
  let s := Store.alloc st (st.read comparedQueries)
  if !isCompared then
    (Store.write s.1 s.2 (objDelete (Store.read s.1 s.2) (key query)), s.2)
  else
    (Store.write s.1 s.2 (objSet (Store.read s.1 s.2) (key query) query), s.2)

/-- A sample query for concrete instantiations, mirroring the repository's
test fixture. -/
def w10query : QueryData :=
  { label := "firstQuery", db := "firstDb", sqlString := "select * from tests",
    executionPlan := none }

/-- A one-object store holding that query under its key. -/
def w10store : Store :=
  { objs := [[(key w10query, w10query)]] }

/- ### The run-query handler of `channels.ts` -/

/-- The object the run-query handler resolves with.  `P` is the shape of the
rows of the EXPLAIN batch's second result, `R` that of the direct execution's
rows. -/
structure QueryResult (P R : Type) where
  db : String
  sqlString : String
  returnedRows : Option R
  explainResults : Option P
  error : Option String

def explainFailMsg : String :=
  "Failed to get Execution Plan. EXPLAIN might not support this query."

/-- Outcomes of the handler's awaited sub-operations: the connection switch,
the rolled-back EXPLAIN batch (its payload is `results[1].rows`), and the
direct execution of the statement. -/
structure RunQueryOracle (P R : Type) where
  connectOk : Bool
  explainOutcome : Except String P
  queryOutcome : Except String R

/-- The run-query handler: switch connections when needed, try the EXPLAIN
batch (recording its failure in `error` with a fixed message), then run the
statement directly (recording a failure by overwriting `error`), and resolve
with the assembled result.  The finally block only restores the connection
and emits events, so it does not affect the resolved value. -/
def runQueryHandler {P R : Type} (targetDb sqlString selectedDb : String)
    (o : RunQueryOracle P R) : Except String (QueryResult P R) :=
  if selectedDb ≠ targetDb ∧ o.connectOk = false then
    Except.error "failed to connect to target database"
  else
    let explainStep : Option P × Option String :=
      match o.explainOutcome with
      | Except.ok p => (some p, none)
      | Except.error _ => (none, some explainFailMsg)
    let queryStep : Option R × Option String :=
      match o.queryOutcome with
      | Except.ok r => (some r, explainStep.2)
      | Except.error e => (none, some e)
    Except.ok
      { db := targetDb, sqlString := sqlString, returnedRows := queryStep.1,
        explainResults := explainStep.1, error := queryStep.2 }

/- ### Synthetic data generation (`backend/DummyD`)

`generateDummyData` walks the table's columns per requested row, generating a
value per non-key column from the column's declared type, sampling a foreign
key from the referenced table for FOREIGN KEY columns, and skipping PRIMARY
KEY columns.  Randomness (`Math.random`, the faker library) and the sampling
query are parameters. -/

/-- One column of the introspected table description. -/
structure ColumnObj where
  column_name : String
  data_type : String
  character_maximum_length : Option ℤ
  is_nullable : String
  constraint_type : String
  foreign_table : String
  foreign_column : String
  deriving Repr, DecidableEq

/-- A generated cell: the TS value is `string | number`, and `undef` is the
JavaScript `undefined` an absent property access yields. -/
inductive Cell where
  | num (n : ℤ)
  | str (s : String)
  | undef
  deriving Repr, DecidableEq

/-- The random draws one call of `generateDataByType` may consume: up to three
`Math.random()` results (each in `[0, 1)`), plus the faker library's
generators — `faker.random.number {min, max}` (an integer in `[min, max]`),
`faker.random.alphaNumeric n` (an alphanumeric string of length `n`) and
`faker.random.boolean ()`. -/
structure Draw where
  r1 : ℚ
  r2 : ℚ
  r3 : ℚ
  fNumber : ℤ → ℤ → ℤ
  fAlphaNumeric : ℕ → String
  fBoolean : Bool

/-- The helper generating a random integer in `[min, max)` from one
`Math.random()` draw `r`: `Math.floor(r * (maxInt - minInt) + minInt)` after
`Math.ceil`/`Math.floor` of the bounds. -/
def getRandomInt (r : ℚ) (min max : ℚ) : ℤ :=
  let minInt := ⌈min⌉
  let maxInt := ⌊max⌋
  ⌊r * ((maxInt : ℚ) - (minInt : ℚ)) + (minInt : ℚ)⌋

/-- The JS template-pad of the date helper: prefix a single-digit rendering
with a zero. -/
def padOne (s : String) : String :=
  if s.length = 1 then "0" ++ s else s

/-- `generateDataByType`: dispatch on the column's declared type; an
unhandled type throws.  For `character varying` the length is
`Math.floor(Math.random() * maxLength)` when `maxLength` is truthy (non-null
and non-zero) and below 3, else the default 3. -/
def generateDataByType (d : Draw) (columnObj : ColumnObj) : Except String Cell :=
  match columnObj.data_type with
  | "smallint" => Except.ok (Cell.num (d.fNumber (-32768) 32767))
  | "integer" => Except.ok (Cell.num (d.fNumber (-2147483648) 2147483647))
  | "bigint" => Except.ok (Cell.num (d.fNumber (-9223372036854775808) 9223372036854775807))
  | "character varying" =>
    let len : ℕ :=
      match columnObj.character_maximum_length with
      | some m => if m ≠ 0 ∧ m < 3 then Int.toNat ⌊d.r1 * (m : ℚ)⌋ else 3
      | none => 3
    Except.ok (Cell.str ("'" ++ d.fAlphaNumeric len ++ "'"))
  | "date" =>
    let year := toString (getRandomInt d.r1 1500 2020)
    let month := padOne (toString (getRandomInt d.r2 1 13))
    let day := padOne (toString (getRandomInt d.r3 1 29))
    Except.ok (Cell.str ("'" ++ year ++ "/" ++ month ++ "/" ++ day ++ "'"))
  | "boolean" =>
    Except.ok (Cell.str ("'" ++ (if d.fBoolean then "true" else "false") ++ "'"))
  | _ => Except.error "unhandled data type"

/-- A row returned by the foreign-key sampling query, as the JS driver
delivers it: property name to value. -/
abbrev DbRow : Type := List (String × Cell)

/-- JS property access `row[name]`: `undefined` when the property is absent. -/
def rowGet (row : DbRow) (name : String) : Cell :=
  match row.find? (fun e => e.1 = name) with
  | some e => e.2
  | none => Cell.undef

/-- One column's contribution to a row.  `sample fc ft` is the outcome of the
`SELECT fc FROM ft TABLESAMPLE BERNOULLI(50) LIMIT 1` query: its rows, or the
error of a rejected query (which the code catches and returns).  A PRIMARY
KEY column contributes nothing; a FOREIGN KEY column contributes
`rows[0]['_id']` of a non-empty sample and fails on an empty one; other
columns get a generated value. -/
def genCell (d : Draw) (sample : String → String → Except String (List DbRow))
    (c : ColumnObj) : Except String (Option Cell) :=
  if c.constraint_type ≠ "FOREIGN KEY" ∧ c.constraint_type ≠ "PRIMARY KEY" then
    (generateDataByType d c).map some
  else if c.constraint_type = "FOREIGN KEY" then
    match sample c.foreign_column c.foreign_table with
    | Except.error e => Except.error e
    | Except.ok rows =>
      match rows with
      | [] => Except.error "There was an error while retrieving a valid foreign key."
      | row :: _ => Except.ok (some (rowGet row "_id"))
  else
    Except.ok none

/-- The inner column loop of `generateDummyData`: `j` is the column index,
indexing the per-column draws and sample outcomes of this row. -/
def genRow (d : ℕ → Draw) (sample : ℕ → String → String → Except String (List DbRow)) :
    ℕ → List ColumnObj → Except String (List Cell)
  | _, [] => Except.ok []
  | j, c :: rest => do
    let cell ← genCell (d j) (sample j) c
    let tail ← genRow d sample (j + 1) rest
    match cell with
    | some v => Except.ok (v :: tail)
    | none => Except.ok tail

/-- The outer row loop: `i` is the row index, the second argument the number
of rows still to generate. -/
def genRows (tableInfo : List ColumnObj) (draws : ℕ → ℕ → Draw)
    (sample : ℕ → ℕ → String → String → Except String (List DbRow)) :
    ℕ → ℕ → Except String (List (List Cell))
  | _, 0 => Except.ok []
  | i, n + 1 => do
    let row ← genRow (draws i) (sample i) 0 tableInfo
    let rest ← genRows tableInfo draws sample (i + 1) n
    Except.ok (row :: rest)

/-- The header row: `tableInfo.reduce` pushing every column name whose
constraint is not PRIMARY KEY. -/
def columnNamesOf (tableInfo : List ColumnObj) : List String :=
  tableInfo.foldl
    (fun acc curr =>
      if curr.constraint_type ≠ "PRIMARY KEY" then acc ++ [curr.column_name] else acc)
    []

/-- `generateDummyData`: the header of non-primary-key column names followed
by `numRows` generated rows.  The TS value is a single heterogeneous array
`[columnNames, ...rows]`; it is returned here as the pair of its head and
tail. -/
def generateDummyData (tableInfo : List ColumnObj) (numRows : ℕ)
    (draws : ℕ → ℕ → Draw)
    (sample : ℕ → ℕ → String → String → Except String (List DbRow)) :
    Except String (List String × List (List Cell)) := do
  let rows ← genRows tableInfo draws sample 0 numRows
  Except.ok (columnNamesOf tableInfo, rows)

/-- A concrete draw for instantiations: zero `Math.random` draws, faker
returning the lower bound, a string of `a`s, and `false`. -/
def wDraw : Draw :=
  { r1 := 0, r2 := 0, r3 := 0,
    fNumber := fun mn _ => mn,
    fAlphaNumeric := fun n => String.mk (List.replicate n 'a'),
    fBoolean := false }

/-- A serial primary-key column. -/
def wPkCol : ColumnObj :=
  { column_name := "_id", data_type := "integer", character_maximum_length := none,
    is_nullable := "NO", constraint_type := "PRIMARY KEY",
    foreign_table := "", foreign_column := "" }

/-- A plain integer column. -/
def wAgeCol : ColumnObj :=
  { column_name := "age", data_type := "integer", character_maximum_length := none,
    is_nullable := "YES", constraint_type := "",
    foreign_table := "", foreign_column := "" }

/-- A foreign-key column referencing `users.user_id` — a referenced column
not named `_id`. -/
def wFkCol : ColumnObj :=
  { column_name := "owner", data_type := "integer", character_maximum_length := none,
    is_nullable := "YES", constraint_type := "FOREIGN KEY",
    foreign_table := "users", foreign_column := "user_id" }

/-- A `date` column. -/
def wDateCol : ColumnObj :=
  { column_name := "born", data_type := "date", character_maximum_length := none,
    is_nullable := "YES", constraint_type := "",
    foreign_table := "", foreign_column := "" }

/-- A `character varying (2)` column. -/
def wVchar2 : ColumnObj :=
  { column_name := "code", data_type := "character varying",
    character_maximum_length := some 2, is_nullable := "YES", constraint_type := "",
    foreign_table := "", foreign_column := "" }

/-- The draw with `Math.random () = 1/2`. -/
def wHalfDraw : Draw :=
  { wDraw with r1 := 1 / 2 }

/-- The repository test's fractional-timing query. -/
def wFracQuery : QueryData :=
  { label := "q", db := "d", sqlString := "s",
    executionPlan := some { executionTime := 0.2965242, planningTime := 0.785523421 } }

/-- The repository test's integer-timing query. -/
def wIntQuery : QueryData :=
  { label := "q", db := "d", sqlString := "s",
    executionPlan := some { executionTime := 1111, planningTime := 1111 } }

/- ### Theorems -/

/-- A `foldl` characterization of the header: the pushed names are exactly
the non-primary-key column names in order. -/
theorem columnNamesOf_eq_filter_map (l : List ColumnObj) :
    columnNamesOf l =
      (l.filter (fun c => c.constraint_type ≠ "PRIMARY KEY")).map ColumnObj.column_name := by
  suffices h : ∀ acc : List String,
      l.foldl (fun acc curr =>
        if curr.constraint_type ≠ "PRIMARY KEY" then acc ++ [curr.column_name] else acc) acc =
      acc ++ (l.filter (fun c => c.constraint_type ≠ "PRIMARY KEY")).map ColumnObj.column_name by
    simpa [columnNamesOf] using h []
  induction l with
  | nil => intro acc; simp
  | cons c rest ih =>
    intro acc
    by_cases hc : c.constraint_type = "PRIMARY KEY"
    · rw [List.foldl_cons, if_neg (not_not_intro hc), ih acc, List.filter_cons,
        show (decide (c.constraint_type ≠ "PRIMARY KEY")) = false by simp [hc]]
      simp
    · rw [List.foldl_cons, if_pos hc, ih (acc ++ [c.column_name]), List.filter_cons,
        show (decide (c.constraint_type ≠ "PRIMARY KEY")) = true by simp [hc]]
      simp

/-- A successful `genCell` yields `none` exactly for a primary-key column. -/
theorem genCell_ok_none_iff (d : Draw) (sample : String → String → Except String (List DbRow))
    (c : ColumnObj) (copt : Option Cell) (h : genCell d sample c = Except.ok copt) :
    (copt = none ↔ c.constraint_type = "PRIMARY KEY") := by
  unfold genCell at h
  by_cases h1 : c.constraint_type ≠ "FOREIGN KEY" ∧ c.constraint_type ≠ "PRIMARY KEY"
  · rw [if_pos h1] at h
    cases hg : generateDataByType d c <;> rw [hg] at h <;>
      simp only [Except.map] at h
    · cases h
    · cases h
      exact ⟨fun hx => Option.noConfusion hx, fun hf => absurd hf h1.2⟩
  · rw [if_neg h1] at h
    by_cases h2 : c.constraint_type = "FOREIGN KEY"
    · rw [if_pos h2] at h
      cases hs : sample c.foreign_column c.foreign_table <;> rw [hs] at h
      · cases h
      · rename_i rows
        cases rows with
        | nil => cases h
        | cons row rest =>
          cases h
          refine ⟨fun hx => Option.noConfusion hx, fun hpk => ?_⟩
          rw [hpk] at h2
          exact absurd h2 (by decide)
    · rw [if_neg h2] at h
      cases h
      refine ⟨fun _ => ?_, fun _ => rfl⟩
      rcases not_and_or.mp h1 with h3 | h3
      · exact absurd (not_not.mp h3) h2
      · exact not_not.mp h3

/-- A successful inner loop produces exactly one cell per non-primary-key
column. -/
theorem genRow_length (d : ℕ → Draw)
    (sample : ℕ → String → String → Except String (List DbRow)) (l : List ColumnObj) :
    ∀ j cells, genRow d sample j l = Except.ok cells →
      cells.length = (l.filter (fun c => c.constraint_type ≠ "PRIMARY KEY")).length := by
  induction l with
  | nil =>
    intro j cells h
    cases h
    rfl
  | cons c rest ih =>
    intro j cells h
    unfold genRow at h
    cases hc : genCell (d j) (sample j) c <;> rw [hc] at h
    · cases h
    · rename_i copt
      cases ht : genRow d sample (j + 1) rest <;> rw [ht] at h
      · cases h
      · rename_i tail
        have htail := ih (j + 1) tail ht
        have hiff := genCell_ok_none_iff (d j) (sample j) c copt hc
        by_cases hpk : c.constraint_type = "PRIMARY KEY"
        · have : copt = none := hiff.mpr hpk
          subst this
          cases h
          simp [List.filter_cons, hpk, htail]
        · cases copt with
          | none => exact absurd (hiff.mp rfl) hpk
          | some v =>
            cases h
            simp [List.filter_cons, hpk, htail]

/-- Every row of a successful outer loop comes from a successful inner
loop. -/
theorem genRows_length (tableInfo : List ColumnObj) (draws : ℕ → ℕ → Draw)
    (sample : ℕ → ℕ → String → String → Except String (List DbRow)) :
    ∀ n i rows, genRows tableInfo draws sample i n = Except.ok rows →
      ∀ r ∈ rows,
        r.length = (tableInfo.filter (fun c => c.constraint_type ≠ "PRIMARY KEY")).length := by
  intro n
  induction n with
  | zero =>
    intro i rows h
    cases h
    intro r hr
    cases hr
  | succ m ih =>
    intro i rows h
    unfold genRows at h
    cases hrow : genRow (draws i) (sample i) 0 tableInfo <;> rw [hrow] at h
    · cases h
    · rename_i row
      cases hrest : genRows tableInfo draws sample (i + 1) m <;> rw [hrest] at h
      · cases h
      · rename_i rest
        cases h
        intro r hr
        rcases List.mem_cons.mp hr with h' | h'
        · subst h'
          exact genRow_length (draws i) (sample i) tableInfo 0 r hrow
        · exact ih (i + 1) rest hrest r h'

/-- C4: on success the header is exactly the non-primary-key column names in
source order, and every generated row has exactly one cell per header column
— primary-key columns are the only ones excluded. -/
theorem generateDummyData_shape (tableInfo : List ColumnObj) (numRows : ℕ)
    (draws : ℕ → ℕ → Draw)
    (sample : ℕ → ℕ → String → String → Except String (List DbRow))
    (names : List String) (rows : List (List Cell))
    (h : generateDummyData tableInfo numRows draws sample = Except.ok (names, rows)) :
    names = (tableInfo.filter (fun c => c.constraint_type ≠ "PRIMARY KEY")).map
        ColumnObj.column_name ∧
      ∀ r ∈ rows, r.length = names.length := by
  unfold generateDummyData at h
  cases hg : genRows tableInfo draws sample 0 numRows <;> rw [hg] at h
  · cases h
  · cases h
    refine ⟨columnNamesOf_eq_filter_map tableInfo, ?_⟩
    intro r hr
    rw [columnNamesOf_eq_filter_map tableInfo, List.length_map]
    exact genRows_length tableInfo draws sample numRows 0 _ hg r hr

/-- C4 witness: a primary-key column plus an integer column, one row — the
header is `["age"]` and the single generated row has one cell. -/
theorem generateDummyData_shape_witness :
    (["age"] = ([wPkCol, wAgeCol].filter (fun c => c.constraint_type ≠ "PRIMARY KEY")).map
        ColumnObj.column_name ∧
      ∀ r ∈ [[Cell.num (-2147483648)]], r.length = (["age"] : List String).length) :=
  generateDummyData_shape [wPkCol, wAgeCol] 1 (fun _ _ => wDraw)
    (fun _ _ _ _ => Except.ok []) ["age"] [[Cell.num (-2147483648)]] rfl

/-- C3 is partly refuted by the code: sampling the referenced table returns a
row whose only property is the referenced column `user_id` with value 42,
yet the emitted cell is `undefined` — the code reads the hardcoded property
`_id` off the sampled row instead of the selected `foreignColumn`.  The
third conjunct shows the empty-referenced-table half of the claim does hold:
generation fails rather than emitting a cell. -/
theorem fk_cell_is_undefined_not_sampled_value :
    generateDummyData [wFkCol] 1 (fun _ _ => wDraw)
        (fun _ _ _ _ => Except.ok [[("user_id", Cell.num 42)]]) =
      Except.ok (["owner"], [[Cell.undef]]) ∧
    rowGet [("user_id", Cell.num 42)] "user_id" = Cell.num 42 ∧
    generateDummyData [wFkCol] 1 (fun _ _ => wDraw) (fun _ _ _ _ => Except.ok []) =
      Except.error "There was an error while retrieving a valid foreign key." :=
  ⟨rfl, rfl, rfl⟩

/-- C1: whenever the dump and create steps of `duplicate` succeed, the restore
step fails and the compensating drop goes through, the handler surfaces an
error and the new database no longer exists in the resulting server state. -/
theorem duplicateDb_drops_new_db_when_restore_fails
    (st : DbState) (newName sourceDb : String) (withData : Bool) (o : DuplicateOracle)
    (hdump : o.dumpOk = true) (hcreate : o.createOk = true)
    (hrestore : o.restoreOk = false) (hdrop : o.dropOk = true) :
    (∃ msg, (duplicateDb st newName sourceDb withData o).1 = Except.error msg) ∧
      newName ∉ (duplicateDb st newName sourceDb withData o).2.dbs := by
  unfold duplicateDb
  rw [hdump, hcreate, hrestore, hdrop]
  refine ⟨⟨"Failed to populate newly created database", rfl⟩, ?_⟩
  simp [dropDb, List.mem_filter]

/-- C1 witness: duplicating `srcdb` as `copydb` with a failing restore drops
`copydb` again. -/
theorem duplicateDb_drops_new_db_when_restore_fails_witness :
    (∃ msg, (duplicateDb ⟨["postgres", "srcdb"]⟩ "copydb" "srcdb" true
        ⟨true, true, false, true⟩).1 = Except.error msg) ∧
      "copydb" ∉ (duplicateDb ⟨["postgres", "srcdb"]⟩ "copydb" "srcdb" true
        ⟨true, true, false, true⟩).2.dbs :=
  duplicateDb_drops_new_db_when_restore_fails _ _ _ _ _ rfl rfl rfl rfl

/-- C2 is refuted by the code: importing `data.csv` (an unsupported
extension) into a fresh database `mydb` surfaces the extension error, yet
`mydb` still exists afterwards — the handler creates the database before
validating the extension and only the restore-failure path performs the
compensating drop, contradicting the handler's own cleanup comment and the
spec. -/
theorem importDb_leaks_db_on_bad_extension :
    (importDb ⟨["postgres"]⟩ "mydb" "data.csv" ⟨true, true, true⟩).1 =
        Except.error "Invalid file extension" ∧
      "mydb" ∈ (importDb ⟨["postgres"]⟩ "mydb" "data.csv" ⟨true, true, true⟩).2.dbs := by
  exact ⟨rfl, by decide⟩

/-- C7: the two sub-steps of the run-query handler are independent: the
EXPLAIN outcome alone determines `explainResults`, the direct-execution
outcome alone determines `returnedRows`, an EXPLAIN failure is recorded in
`error` with the fixed message, and a direct-execution failure overwrites
`error` with its own message. -/
theorem runQuery_steps_independent (P R : Type) (targetDb sqlString selectedDb : String)
    (o : RunQueryOracle P R)
    (hconn : selectedDb = targetDb ∨ o.connectOk = true) :
    ∃ res : QueryResult P R,
      runQueryHandler targetDb sqlString selectedDb o = Except.ok res ∧
      res.explainResults = o.explainOutcome.toOption ∧
      res.returnedRows = o.queryOutcome.toOption ∧
      res.error = (match o.queryOutcome, o.explainOutcome with
        | Except.error e, _ => some e
        | Except.ok _, Except.error _ => some explainFailMsg
        | Except.ok _, Except.ok _ => none) := by
  have hcond : ¬(selectedDb ≠ targetDb ∧ o.connectOk = false) := by
    rcases hconn with h | h
    · exact fun hc => hc.1 h
    · exact fun hc => by rw [h] at hc; cases hc.2
  unfold runQueryHandler
  rw [if_neg hcond]
  refine ⟨_, rfl, ?_, ?_, ?_⟩ <;>
    cases o.explainOutcome <;> cases o.queryOutcome <;> simp [Except.toOption]

/-- C7 witness: with a failing EXPLAIN and a succeeding direct execution the
result still carries the rows, and the error field holds the EXPLAIN
message. -/
theorem runQuery_steps_independent_witness :
    ∃ res : QueryResult ℕ ℕ,
      runQueryHandler "target" "SELECT 1" "selected"
          ⟨true, Except.error "not explainable", Except.ok 5⟩ = Except.ok res ∧
      res.explainResults = (Except.error "not explainable" : Except String ℕ).toOption ∧
      res.returnedRows = (Except.ok 5 : Except String ℕ).toOption ∧
      res.error = (match (Except.ok 5 : Except String ℕ),
          (Except.error "not explainable" : Except String ℕ) with
        | Except.error e, _ => some e
        | Except.ok _, Except.error _ => some explainFailMsg
        | Except.ok _, Except.ok _ => none) :=
  runQuery_steps_independent ℕ ℕ "target" "SELECT 1" "selected"
    ⟨true, Except.error "not explainable", Except.ok 5⟩ (Or.inr rfl)

/-- Reading an untouched reference after an allocation. -/
theorem Store.read_alloc (st : Store) (o : Obj) (r : ℕ) (hr : r < st.objs.length) :
    (st.alloc o).1.read r = st.read r := by
  unfold Store.alloc Store.read
  exact List.getD_append _ _ _ _ hr

/-- Reading an untouched reference after a write to a different reference. -/
theorem Store.read_write_ne (st : Store) (o : Obj) (i r : ℕ) (hir : i ≠ r)
    (hr : r < st.objs.length) :
    (st.write i o).read r = st.read r := by
  unfold Store.write Store.read
  rw [List.getD_eq_getElem _ _ (by simpa using hr), List.getD_eq_getElem _ _ hr]
  exact List.getElem_set_ne hir _

/-- Reading an untouched reference after an allocate-then-mutate-the-copy
sequence, the pattern all three collection helpers share. -/
theorem Store.read_alloc_write (st : Store) (o o' : Obj) (r : ℕ)
    (hr : r < st.objs.length) :
    ((st.alloc o).1.write (st.alloc o).2 o').read r = st.read r := by
  have h2 : (st.alloc o).2 = st.objs.length := rfl
  have hlen : r < (st.alloc o).1.objs.length := by
    unfold Store.alloc
    simp only [List.length_append, List.length_cons, List.length_nil]
    omega
  rw [h2, Store.read_write_ne _ _ _ _ (Nat.ne_of_lt hr).symm hlen]
  exact Store.read_alloc st o r hr

/-- C10: `createQuery`, `deleteQuery` and `setCompare` leave the collection
behind the input reference unchanged and return a reference distinct from
the input — each copies the input with a spread and mutates only the fresh
copy. -/
theorem query_collection_helpers_pure
    (st : Store) (r : ℕ) (q : QueryData) (b : Bool) (hr : r < st.objs.length) :
    ((createQuery st r q).1.read r = st.read r ∧ (createQuery st r q).2 ≠ r) ∧
      ((deleteQuery st r q).1.read r = st.read r ∧ (deleteQuery st r q).2 ≠ r) ∧
      ((setCompare st r q b).1.read r = st.read r ∧ (setCompare st r q b).2 ≠ r) := by
  have hfresh : st.objs.length ≠ r := (Nat.ne_of_lt hr).symm
  refine ⟨⟨Store.read_alloc st _ r hr, hfresh⟩,
    ⟨Store.read_alloc_write st _ _ r hr, hfresh⟩, ⟨?_, ?_⟩⟩
  · cases b <;> exact Store.read_alloc_write st _ _ r hr
  · cases b <;> exact hfresh

/-- C10 witness: on a one-object store holding one query under its key, all
three helpers preserve the stored object and return a fresh reference. -/
theorem query_collection_helpers_pure_witness :
    ((createQuery w10store 0 w10query).1.read 0 = w10store.read 0 ∧
        (createQuery w10store 0 w10query).2 ≠ 0) ∧
      ((deleteQuery w10store 0 w10query).1.read 0 = w10store.read 0 ∧
        (deleteQuery w10store 0 w10query).2 ≠ 0) ∧
      ((setCompare w10store 0 w10query true).1.read 0 = w10store.read 0 ∧
        (setCompare w10store 0 w10query true).2 ≠ 0) :=
  query_collection_helpers_pure w10store 0 w10query true (by decide)

/-- For a `Math.random` draw in `[0, 1)` and integral bounds, the helper's
result lies in `[a, b)`. -/
theorem getRandomInt_bounds (r min max : ℚ) (a b : ℤ) (hr0 : 0 ≤ r) (hr1 : r < 1)
    (ha : ⌈min⌉ = a) (hb : ⌊max⌋ = b) (hab : a < b) :
    a ≤ getRandomInt r min max ∧ getRandomInt r min max < b := by
  unfold getRandomInt
  rw [ha, hb]
  have hba : (0 : ℚ) < (b : ℚ) - (a : ℚ) := by
    rw [sub_pos]
    exact_mod_cast hab
  constructor
  · apply Int.le_floor.mpr
    have h0 : (0 : ℚ) ≤ r * ((b : ℚ) - (a : ℚ)) := mul_nonneg hr0 (le_of_lt hba)
    linarith
  · apply Int.floor_lt.mpr
    have h1 : r * ((b : ℚ) - (a : ℚ)) < 1 * ((b : ℚ) - (a : ℚ)) :=
      mul_lt_mul_of_pos_right hr1 hba
    linarith

/-- A year in the generated range prints as four digits. -/
theorem year_toString_length (y : ℤ) (h1 : 1500 ≤ y) (h2 : y < 2020) :
    (toString y).length = 4 := by
  interval_cases y <;> decide

/-- A month in `[1, 12]` prints as two digits after the zero-pad. -/
theorem month_toString_length (m : ℤ) (h1 : 1 ≤ m) (h2 : m < 13) :
    (padOne (toString m)).length = 2 := by
  interval_cases m <;> decide

/-- A day in `[1, 28]` prints as two digits after the zero-pad. -/
theorem day_toString_length (d : ℤ) (h1 : 1 ≤ d) (h2 : d < 29) :
    (padOne (toString d)).length = 2 := by
  interval_cases d <;> decide

/-- C6: every generated `date` value is a quoted `YYYY/MM/DD` string with the
year in `[1500, 2020]`, the month in `[1, 12]` and the day in `[1, 28]`, the
month and day zero-padded to two digits. -/
theorem date_value_format (d : Draw) (c : ColumnObj) (hty : c.data_type = "date")
    (h10 : 0 ≤ d.r1) (h11 : d.r1 < 1) (h20 : 0 ≤ d.r2) (h21 : d.r2 < 1)
    (h30 : 0 ≤ d.r3) (h31 : d.r3 < 1) :
    ∃ y m dy : ℤ,
      1500 ≤ y ∧ y ≤ 2020 ∧ 1 ≤ m ∧ m ≤ 12 ∧ 1 ≤ dy ∧ dy ≤ 28 ∧
      (toString y).length = 4 ∧ (padOne (toString m)).length = 2 ∧
      (padOne (toString dy)).length = 2 ∧
      generateDataByType d c =
        Except.ok (Cell.str ("'" ++ toString y ++ "/" ++ padOne (toString m) ++ "/" ++
          padOne (toString dy) ++ "'")) := by
  obtain ⟨cn, dt, ml, nl, ct, ft, fc⟩ := c
  simp only at hty
  subst hty
  have hy := getRandomInt_bounds d.r1 1500 2020 1500 2020 h10 h11 (by norm_num) (by norm_num)
    (by norm_num)
  have hm := getRandomInt_bounds d.r2 1 13 1 13 h20 h21 (by norm_num) (by norm_num)
    (by norm_num)
  have hd := getRandomInt_bounds d.r3 1 29 1 29 h30 h31 (by norm_num) (by norm_num)
    (by norm_num)
  refine ⟨getRandomInt d.r1 1500 2020, getRandomInt d.r2 1 13, getRandomInt d.r3 1 29,
    hy.1, le_of_lt (lt_of_lt_of_le hy.2 (by norm_num)), hm.1, by omega, hd.1, by omega,
    year_toString_length _ hy.1 hy.2, month_toString_length _ hm.1 hm.2,
    day_toString_length _ hd.1 hd.2, rfl⟩

/-- C6 witness: the all-zero draw yields the quoted date `1500/01/01`. -/
theorem date_value_format_witness :
    ∃ y m dy : ℤ,
      1500 ≤ y ∧ y ≤ 2020 ∧ 1 ≤ m ∧ m ≤ 12 ∧ 1 ≤ dy ∧ dy ≤ 28 ∧
      (toString y).length = 4 ∧ (padOne (toString m)).length = 2 ∧
      (padOne (toString dy)).length = 2 ∧
      generateDataByType wDraw wDateCol =
        Except.ok (Cell.str ("'" ++ toString y ++ "/" ++ padOne (toString m) ++ "/" ++
          padOne (toString dy) ++ "'")) :=
  date_value_format wDraw wDateCol rfl (by norm_num [wDraw]) (by norm_num [wDraw])
    (by norm_num [wDraw]) (by norm_num [wDraw]) (by norm_num [wDraw]) (by norm_num [wDraw])

/-- C5 (amended): a `character varying` value is always a quoted alphanumeric
string; when `maxLength` is a positive value below 3 the string's length is
`Math.floor(Math.random() * maxLength)`, hence strictly below `maxLength`
(not equal to it); in every other case (no `maxLength`, `maxLength = 0`, or
`maxLength ≥ 3`) the length is the default 3. -/
theorem charVarying_length (d : Draw) (c : ColumnObj)
    (hty : c.data_type = "character varying")
    (hr0 : 0 ≤ d.r1) (hr1 : d.r1 < 1)
    (halpha : ∀ n, (d.fAlphaNumeric n).length = n)
    (hnn : ∀ m, c.character_maximum_length = some m → 0 ≤ m) :
    ∃ s, generateDataByType d c = Except.ok (Cell.str ("'" ++ s ++ "'")) ∧
      ((∃ m, c.character_maximum_length = some m ∧ 0 < m ∧ m < 3 ∧ (s.length : ℤ) < m) ∨
        ((c.character_maximum_length = none ∨ c.character_maximum_length = some 0 ∨
          ∃ m, c.character_maximum_length = some m ∧ 3 ≤ m) ∧ s.length = 3)) := by
  obtain ⟨cn, dt, ml, nl, ct, ft, fc⟩ := c
  simp only at hty hnn ⊢
  subst hty
  cases ml with
  | none => exact ⟨d.fAlphaNumeric 3, rfl, Or.inr ⟨Or.inl rfl, halpha 3⟩⟩
  | some m =>
    by_cases hm : m ≠ 0 ∧ m < 3
    · have hm0 : 0 < m := lt_of_le_of_ne (hnn m rfl) (Ne.symm hm.1)
      refine ⟨d.fAlphaNumeric (Int.toNat ⌊d.r1 * (m : ℚ)⌋), ?_,
        Or.inl ⟨m, rfl, hm0, hm.2, ?_⟩⟩
      · simp only [generateDataByType, if_pos hm]
      · have hmq : (0 : ℚ) < (m : ℚ) := by exact_mod_cast hm0
        have hfl0 : 0 ≤ ⌊d.r1 * (m : ℚ)⌋ :=
          Int.floor_nonneg.mpr (mul_nonneg hr0 (le_of_lt hmq))
        have hflm : ⌊d.r1 * (m : ℚ)⌋ < m := by
          apply Int.floor_lt.mpr
          calc d.r1 * (m : ℚ) < 1 * (m : ℚ) := mul_lt_mul_of_pos_right hr1 hmq
          _ = (m : ℚ) := one_mul _
        rw [halpha, Int.toNat_of_nonneg hfl0]
        exact hflm
    · refine ⟨d.fAlphaNumeric 3, ?_, Or.inr ⟨?_, halpha 3⟩⟩
      · simp only [generateDataByType, if_neg hm]
      · rcases not_and_or.mp hm with h0 | h3
        · exact Or.inr (Or.inl (by rw [not_not.mp h0]))
        · exact Or.inr (Or.inr ⟨m, rfl, by omega⟩)

/-- C5 witness: for `maxLength = 2` and the draw `1/2` the value is a quoted
one-character string (length 1 < 2). -/
theorem charVarying_length_witness :
    ∃ s, generateDataByType wHalfDraw wVchar2 = Except.ok (Cell.str ("'" ++ s ++ "'")) ∧
      ((∃ m, wVchar2.character_maximum_length = some m ∧ 0 < m ∧ m < 3 ∧ (s.length : ℤ) < m) ∨
        ((wVchar2.character_maximum_length = none ∨ wVchar2.character_maximum_length = some 0 ∨
          ∃ m, wVchar2.character_maximum_length = some m ∧ 3 ≤ m) ∧ s.length = 3)) :=
  charVarying_length wHalfDraw wVchar2 rfl (by norm_num [wHalfDraw, wDraw])
    (by norm_num [wHalfDraw, wDraw])
    (fun n => by simp [wHalfDraw, wDraw])
    (fun m h => by
      simp only [wVchar2, Option.some.injEq] at h
      omega)

/-- C5 as stated is refuted: with `maxLength = 2` and the draw `1/2` the
generated string's inner length is 1, not `maxLength` — the code draws a
random length strictly below `maxLength` instead of using `maxLength`
itself. -/
theorem charVarying_not_maxLength :
    ¬ ∃ s, generateDataByType wHalfDraw wVchar2 = Except.ok (Cell.str ("'" ++ s ++ "'")) ∧
        s.length = 2 := by
  rintro ⟨s, hs, hlen⟩
  have heval : generateDataByType wHalfDraw wVchar2 = Except.ok (Cell.str "'a'") := by
    simp only [wHalfDraw, wDraw, wVchar2, generateDataByType]
    norm_num
    decide
  rw [heval] at hs
  have hcell := Except.ok.inj hs
  have hstr : "'a'" = "'" ++ s ++ "'" := Cell.str.inj hcell
  have hl := congrArg String.length hstr
  simp only [String.length_append, hlen] at hl
  exact absurd hl (by decide)

/-- C8: `getTotalTime` is 0 for a missing query or a missing plan, and
otherwise is the sum of the plan's Execution Time and Planning Time fields;
the repository's example sums to 3000. -/
theorem getTotalTime_spec :
    getTotalTime none = 0 ∧
      (∀ l d s, getTotalTime (some
        { label := l, db := d, sqlString := s, executionPlan := none }) = 0) ∧
      (∀ l d s p, getTotalTime (some
          { label := l, db := d, sqlString := s, executionPlan := some p }) =
        p.executionTime + p.planningTime) ∧
      getTotalTime (some
        { label := "q", db := "d", sqlString := "s",
          executionPlan := some { executionTime := 1000, planningTime := 2000 } }) = 3000 := by
  refine ⟨rfl, fun l d s => rfl, fun l d s p => rfl, ?_⟩
  show (1000 : ℚ) + 2000 = 3000
  norm_num

/-- Evaluation rule for `sciExp` at an argument of at least one. -/
theorem sciExp_of_ge_one (q : ℚ) (z : ℤ) (e : ℕ) (h1 : 1 ≤ q) (hf : ⌊q⌋ = z)
    (he : Nat.log 10 (Int.toNat z) = e) : sciExp q = (e : ℤ) := by
  unfold sciExp
  rw [if_pos h1, hf, he]

/-- Evaluation rule for `toPrecision3` at a positive argument. -/
theorem toPrecision3_of_pos (q : ℚ) (e n : ℤ) (hq : 0 < q) (he : sciExp q = e)
    (hn : ⌊q / (10 : ℚ) ^ (e - 2) + 1 / 2⌋ = n) :
    toPrecision3 q = (n : ℚ) * (10 : ℚ) ^ (e - 2) := by
  simp only [toPrecision3]
  rw [if_neg (ne_of_gt hq), abs_of_pos hq, he, hn, if_neg (not_lt.mpr (le_of_lt hq))]

/-- Evaluation rule for `ratToDecString` at a positive argument with a
fractional part. -/
theorem ratToDecString_of_pos (q : ℚ) (nd k : ℕ) (u i f : ℤ) (hq : 0 < q)
    (hden : q.den = nd)
    (hk : max (countFactor 2 nd nd) (countFactor 5 nd nd) = k) (hk0 : k ≠ 0)
    (hu : (q * (10 : ℚ) ^ k).num = u) (hi : u / (10 : ℤ) ^ k = i)
    (hf : u % (10 : ℤ) ^ k = f) :
    ratToDecString q = toString i ++ "." ++ leftPadZeros k (toString f) := by
  simp only [ratToDecString]
  rw [abs_of_pos hq, hden, hk, hu, hi, hf, if_neg (not_lt.mpr (le_of_lt hq)), if_neg hk0]
  rfl

/-- The `ms` long format of a sub-second value. -/
theorem fmtLong_ms (v : ℚ) (h0 : 0 ≤ v) (h : v < 1000) :
    fmtLong v = ratToDecString v ++ " ms" := by
  simp only [fmtLong]
  rw [abs_of_nonneg h0, if_neg (by linarith), if_neg (by linarith), if_neg (by linarith),
    if_neg (by linarith)]

/-- The `ms` long format of a pluralized seconds value. -/
theorem fmtLong_seconds (v : ℚ) (h0 : 0 ≤ v) (h1 : 1500 ≤ v) (h2 : v < 60000) (r : ℤ)
    (hr : jsRound (v / 1000) = r) :
    fmtLong v = toString r ++ " " ++ "second" ++ "s" := by
  simp only [fmtLong, msPlural]
  rw [abs_of_nonneg h0, if_neg (by linarith), if_neg (by linarith), if_neg (by linarith),
    if_pos (by linarith), hr, if_pos (by linarith)]

/-- C9: `getPrettyTime` rounds the total time to 3 significant figures and
then formats: the repository's fractional example prints as `1.08 ms` and
its integer example as `2 seconds`. -/
theorem getPrettyTime_rounds_to_3_sig_figs :
    getPrettyTime (some wFracQuery) = some "1.08 ms" ∧
      getPrettyTime (some wIntQuery) = some "2 seconds" := by
  have ht1 : getTotalTime (some wFracQuery) = 1082047621 / 1000000000 := by
    norm_num [getTotalTime, wFracQuery]
  have ht2 : getTotalTime (some wIntQuery) = 2222 := by
    norm_num [getTotalTime, wIntQuery]
  have he1 : sciExp (1082047621 / 1000000000) = ((0 : ℕ) : ℤ) :=
    sciExp_of_ge_one _ 1 0 (by norm_num) (Int.floor_eq_iff.mpr (by norm_num)) (by simp)
  have hp1 : toPrecision3 (1082047621 / 1000000000) = 27 / 25 := by
    rw [toPrecision3_of_pos _ 0 108 (by norm_num) (by exact_mod_cast he1)
      (Int.floor_eq_iff.mpr (by norm_num))]
    norm_num
  have hr1 : ratToDecString (27 / 25) = "1.08" := by
    rw [ratToDecString_of_pos (27 / 25) 25 2 108 1 8 (by norm_num) (by norm_num) rfl
      (by norm_num) (by norm_num) (by norm_num) (by norm_num)]
    decide
  have hf1 : fmtLong (27 / 25) = "1.08 ms" := by
    rw [fmtLong_ms (27 / 25) (by norm_num) (by norm_num), hr1]
    decide
  have he2 : sciExp (2222 : ℚ) = ((3 : ℕ) : ℤ) := by
    apply sciExp_of_ge_one _ 2222 3 (by norm_num) (by norm_num)
    rw [show Int.toNat 2222 = 2222 from rfl]
    exact Nat.log_eq_of_pow_le_of_lt_pow (by norm_num) (by norm_num)
  have hp2 : toPrecision3 (2222 : ℚ) = 2220 := by
    rw [toPrecision3_of_pos _ 3 222 (by norm_num) (by exact_mod_cast he2)
      (Int.floor_eq_iff.mpr (by norm_num))]
    norm_num
  have hjr : jsRound ((2220 : ℚ) / 1000) = 2 := by
    unfold jsRound
    exact Int.floor_eq_iff.mpr (by norm_num)
  have hf2 : fmtLong (2220 : ℚ) = "2 seconds" := by
    rw [fmtLong_seconds 2220 (by norm_num) (by norm_num) (by norm_num) 2 hjr]
    decide
  constructor
  · show some (fmtLong (toPrecision3 (getTotalTime (some wFracQuery)))) = some "1.08 ms"
    rw [ht1, hp1, hf1]
  · show some (fmtLong (toPrecision3 (getTotalTime (some wIntQuery)))) = some "2 seconds"
    rw [ht2, hp2, hf2]

end SeeQR
